import Mathlib

/-
  Verification of the vc4 instruction encoder of V3DLib
  (src/Lib/vc4/Instr.cpp), as a shallow embedding in Lean 4.

  C++ fatal calls and failed assert / assertq checks are modelled as
  Except.error (a "Contract Violation"); every successful path returns
  Except.ok with the values the C++ computes.  Machine integers uint32_t
  are modelled as Nat, with the C cast (uint32_t) of a signed int made
  explicit as reduction modulo 2^32.
-/

/-- Decidable equality for Except, so concrete runs of the encoder can be
checked by decide. -/
instance instDecEqExcept {ε α : Type} [DecidableEq ε] [DecidableEq α] :
    DecidableEq (Except ε α)
  | Except.error a, Except.error b =>
      if h : a = b then Decidable.isTrue (h ▸ rfl)
      else Decidable.isFalse (fun hc => h (by injection hc))
  | Except.error _, Except.ok _ => Decidable.isFalse (fun hc => Except.noConfusion hc)
  | Except.ok _, Except.error _ => Decidable.isFalse (fun hc => Except.noConfusion hc)
  | Except.ok a, Except.ok b =>
      if h : a = b then Decidable.isTrue (h ▸ rfl)
      else Decidable.isFalse (fun hc => h (by injection hc))

namespace V3DLib

/-- Register tags of the machine-independent register model (enum RegTag):
regfile A, regfile B, accumulators, special registers, and the
no-operand placeholder. -/
inductive RegTag where
  | REG_A
  | REG_B
  | ACC
  | SPECIAL
  | NONE
deriving DecidableEq, Repr

/-- A logical register: a tag plus an integer id.  In the C++ the id is a
signed int whose valid range depends on the tag; lower bounds are checked
by assertions in the encoder. -/
structure Reg where
  tag : RegTag
  regId : Int
deriving DecidableEq, Repr

/- Special-register ids.  Modelled from the spec: the enum that declares
these names is not under src/; only the identity (distinctness) of the
ids is observable in the encoder, so the numeric values below are an
arbitrary distinct assignment. -/

/-- Modelled from the spec: special register id, uniform-read. -/
def SPECIAL_UNIFORM : Int := 0

/-- Modelled from the spec: special register id, element number. -/
def SPECIAL_ELEM_NUM : Int := 1

/-- Modelled from the spec: special register id, QPU number. -/
def SPECIAL_QPU_NUM : Int := 2

/-- Modelled from the spec: special register id, VPM read setup. -/
def SPECIAL_RD_SETUP : Int := 3

/-- Modelled from the spec: special register id, VPM write setup. -/
def SPECIAL_WR_SETUP : Int := 4

/-- Modelled from the spec: special register id, DMA load wait. -/
def SPECIAL_DMA_LD_WAIT : Int := 5

/-- Modelled from the spec: special register id, DMA store wait. -/
def SPECIAL_DMA_ST_WAIT : Int := 6

/-- Modelled from the spec: special register id, DMA load address. -/
def SPECIAL_DMA_LD_ADDR : Int := 7

/-- Modelled from the spec: special register id, DMA store address. -/
def SPECIAL_DMA_ST_ADDR : Int := 8

/-- Modelled from the spec: special register id, VPM read. -/
def SPECIAL_VPM_READ : Int := 9

/-- Modelled from the spec: special register id, VPM write. -/
def SPECIAL_VPM_WRITE : Int := 10

/-- Modelled from the spec: special register id, host interrupt. -/
def SPECIAL_HOST_INT : Int := 11

/-- Modelled from the spec: special register id, TMU0 S coordinate. -/
def SPECIAL_TMU0_S : Int := 12

/-- Modelled from the spec: special register id, SFU reciprocal. -/
def SPECIAL_SFU_RECIP : Int := 13

/-- Modelled from the spec: special register id, SFU recip sqrt. -/
def SPECIAL_SFU_RECIPSQRT : Int := 14

/-- Modelled from the spec: special register id, SFU exp2. -/
def SPECIAL_SFU_EXP : Int := 15

/-- Modelled from the spec: special register id, SFU log2. -/
def SPECIAL_SFU_LOG : Int := 16

/-- Modelled from the spec: a register's regfile bank affinity.  A bank-A
or bank-B register has that fixed bank; accumulators, specials and the
no-operand placeholder have no fixed bank preference (NONE).  Used by the
bank-conflict resolver (the C++ method Reg::regfile is not under src/). -/
def Reg.regfile (r : Reg) : RegTag :=
  match r.tag with
  | RegTag.REG_A => RegTag.REG_A
  | RegTag.REG_B => RegTag.REG_B
  | _ => RegTag.NONE

/-- Modelled from the spec: a small-immediate operand payload, carrying a
signed integer value (field val of the C++ SmallImm, not under src/). -/
structure SmallImm where
  val : Int
deriving DecidableEq, Repr

/-- Modelled from the spec: a two-variant union over Reg and SmallImm;
exactly one variant is active (the C++ class RegOrImm, not under src/). -/
inductive RegOrImm where
  | reg (r : Reg)
  | imm (i : SmallImm)
deriving DecidableEq, Repr

/-- Whether the operand is a register (RegOrImm::is_reg). -/
def RegOrImm.is_reg : RegOrImm → Bool
  | RegOrImm.reg _ => true
  | RegOrImm.imm _ => false

/-- Whether the operand is an immediate (RegOrImm::is_imm). -/
def RegOrImm.is_imm : RegOrImm → Bool
  | RegOrImm.reg _ => false
  | RegOrImm.imm _ => true

/-- The register of a register operand (RegOrImm::reg; only called on
operands known to be registers, so the immediate case returns a dummy). -/
def RegOrImm.getReg : RegOrImm → Reg
  | RegOrImm.reg r => r
  | RegOrImm.imm _ => ⟨RegTag.NONE, 0⟩

/-- The value of an immediate operand (RegOrImm::imm().val; only called
on operands known to be immediates, so the register case returns 0). -/
def RegOrImm.getImmVal : RegOrImm → Int
  | RegOrImm.reg _ => 0
  | RegOrImm.imm i => i.val

/-- The C cast (uint32_t) of a signed int: reduction modulo 2^32. -/
def uint32ofInt (i : Int) : Nat :=
  (i % (2 : Int) ^ 32).toNat

namespace vc4

/-- encodeDestReg (src/Lib/vc4/Instr.cpp, lines 33-75): the regfile index
and bank to use for a register write.  Returns (index, file).  Note the
C++ fallthrough: a SPECIAL register whose id matches no case of the inner
switch falls through into the NONE case and returns index 39 with the
default bank, it does not reach the fatal default of the outer switch. -/
def encodeDestReg (reg : Reg) : Except String (Nat × RegTag) :=
  let AorB :=
    if reg.tag = RegTag.REG_A ∨ reg.tag = RegTag.REG_B then reg.tag
    else RegTag.REG_A
  match reg.tag with
  | RegTag.REG_A =>
      if 0 ≤ reg.regId ∧ reg.regId < 32 then .ok (reg.regId.toNat, RegTag.REG_A)
      else .error ("assert failed: regId in 0..31 for REG_A write")
  | RegTag.REG_B =>
      if 0 ≤ reg.regId ∧ reg.regId < 32 then .ok (reg.regId.toNat, RegTag.REG_B)
      else .error ("assert failed: regId in 0..31 for REG_B write")
  | RegTag.ACC =>
      if 0 ≤ reg.regId ∧ reg.regId ≤ 5 then
        .ok ((32 + reg.regId).toNat, if reg.regId = 5 then RegTag.REG_B else AorB)
      else .error ("assert failed: regId in 0..5 for ACC write")
  | RegTag.SPECIAL =>
      if reg.regId = SPECIAL_RD_SETUP then .ok (49, RegTag.REG_A)
      else if reg.regId = SPECIAL_WR_SETUP then .ok (49, RegTag.REG_B)
      else if reg.regId = SPECIAL_DMA_LD_ADDR then .ok (50, RegTag.REG_A)
      else if reg.regId = SPECIAL_DMA_ST_ADDR then .ok (50, RegTag.REG_B)
      else if reg.regId = SPECIAL_VPM_WRITE then .ok (48, AorB)
      else if reg.regId = SPECIAL_HOST_INT then .ok (38, AorB)
      else if reg.regId = SPECIAL_TMU0_S then .ok (56, AorB)
      else if reg.regId = SPECIAL_SFU_RECIP then .ok (52, AorB)
      else if reg.regId = SPECIAL_SFU_RECIPSQRT then .ok (53, AorB)
      else if reg.regId = SPECIAL_SFU_EXP then .ok (54, AorB)
      else if reg.regId = SPECIAL_SFU_LOG then .ok (55, AorB)
      else .ok (39, AorB)
  | RegTag.NONE => .ok (39, AorB)

/-- The special-register ids enumerated by the inner switch of
encodeDestReg: the write-mapped special registers. -/
def destSpecialIds : List Int :=
  [SPECIAL_RD_SETUP, SPECIAL_WR_SETUP, SPECIAL_DMA_LD_ADDR, SPECIAL_DMA_ST_ADDR,
   SPECIAL_VPM_WRITE, SPECIAL_HOST_INT, SPECIAL_TMU0_S, SPECIAL_SFU_RECIP,
   SPECIAL_SFU_RECIPSQRT, SPECIAL_SFU_EXP, SPECIAL_SFU_LOG]

/-- encodeSrcReg (src/Lib/vc4/Instr.cpp, lines 119-156): the regfile index
and input-mux code to use for a register read through regfile `file`.
Returns (index, mux).  Accumulator reads bypass the regfile and return
the NO_REGFILE_INDEX constant 0 as index.  A SPECIAL register whose id
matches no inner case falls into the default of the outer switch, which
is fatal. -/
def encodeSrcReg (reg : Reg) (file : RegTag) : Except String (Nat × Nat) :=
  if ¬ (file = RegTag.REG_A ∨ file = RegTag.REG_B) then
    .error ("assert failed: file is REG_A or REG_B")
  else
    let NO_REGFILE_INDEX : Nat := 0
    let AorB : Nat := if file = RegTag.REG_A then 6 else 7
    match reg.tag with
    | RegTag.REG_A =>
        if 0 ≤ reg.regId ∧ reg.regId < 32 ∧ file = RegTag.REG_A then
          .ok (reg.regId.toNat, 6)
        else .error ("assert failed: regId in 0..31 and file REG_A for REG_A read")
    | RegTag.REG_B =>
        if 0 ≤ reg.regId ∧ reg.regId < 32 ∧ file = RegTag.REG_B then
          .ok (reg.regId.toNat, 7)
        else .error ("assert failed: regId in 0..31 and file REG_B for REG_B read")
    | RegTag.ACC =>
        if 0 ≤ reg.regId ∧ reg.regId ≤ 4 then
          .ok (NO_REGFILE_INDEX, reg.regId.toNat)
        else .error ("assert failed: regId in 0..4 for ACC read")
    | RegTag.NONE => .ok (39, AorB)
    | RegTag.SPECIAL =>
        if reg.regId = SPECIAL_UNIFORM then .ok (32, AorB)
        else if reg.regId = SPECIAL_ELEM_NUM then
          if file = RegTag.REG_A then .ok (38, 6)
          else .error ("assert failed: ELEM_NUM read needs file REG_A")
        else if reg.regId = SPECIAL_QPU_NUM then
          if file = RegTag.REG_B then .ok (38, 7)
          else .error ("assert failed: QPU_NUM read needs file REG_B")
        else if reg.regId = SPECIAL_VPM_READ then .ok (48, AorB)
        else if reg.regId = SPECIAL_DMA_LD_WAIT then
          if file = RegTag.REG_A then .ok (50, 6)
          else .error ("assert failed: DMA_LD_WAIT read needs file REG_A")
        else if reg.regId = SPECIAL_DMA_ST_WAIT then
          if file = RegTag.REG_B then .ok (50, 7)
          else .error ("assert failed: DMA_ST_WAIT read needs file REG_B")
        else .error ("V3DLib: missing case in encodeSrcReg")

/-- The four physical read fields produced by operand resolution:
read addresses A and B and mux selectors A and B. -/
structure OperandFields where
  raddra : Nat
  raddrb : Nat
  muxa : Nat
  muxb : Nat
deriving DecidableEq, Repr

/-- Instr::encode_operands (src/Lib/vc4/Instr.cpp, lines 206-267): operand
bank-conflict resolution for the two sources of an ALU instruction.
Local raddra is initialised to 0 in the C++, so the immediate-immediate
branch, which never assigns it, yields raddra = 0. -/
def encode_operands (srcA srcB : RegOrImm) : Except String OperandFields :=
  match srcA, srcB with
  | RegOrImm.reg ra, RegOrImm.reg rb =>
      let aFile := ra.regfile
      let aTag := ra.tag
      let bFile := rb.regfile
      if aTag ≠ RegTag.NONE ∧ ra = rb then
        if aFile = RegTag.REG_A then
          match encodeSrcReg ra RegTag.REG_A with
          | .ok (raddra, muxa) => .ok ⟨raddra, 39, muxa, muxa⟩
          | .error e => .error e
        else
          match encodeSrcReg ra RegTag.REG_B with
          | .ok (raddrb, muxa) => .ok ⟨39, raddrb, muxa, muxa⟩
          | .error e => .error e
      else
        if aFile = RegTag.NONE ∨ bFile = RegTag.NONE ∨ aFile ≠ bFile then
          if aFile = RegTag.REG_A ∨ bFile = RegTag.REG_B then
            match encodeSrcReg ra RegTag.REG_A, encodeSrcReg rb RegTag.REG_B with
            | .ok (raddra, muxa), .ok (raddrb, muxb) => .ok ⟨raddra, raddrb, muxa, muxb⟩
            | .error e, _ => .error e
            | .ok _, .error e => .error e
          else
            match encodeSrcReg rb RegTag.REG_A, encodeSrcReg ra RegTag.REG_B with
            | .ok (raddra, muxb), .ok (raddrb, muxa) => .ok ⟨raddra, raddrb, muxa, muxb⟩
            | .error e, _ => .error e
            | .ok _, .error e => .error e
        else
          .error ("assert failed: aFile or bFile NONE, or aFile and bFile differ")
  | RegOrImm.imm ia, RegOrImm.imm ib =>
      if ia.val = ib.val then
        .ok ⟨0, uint32ofInt ia.val, 7, 7⟩
      else
        .error ("srcA and srcB can not both be immediates with different values")
  | RegOrImm.reg ra, RegOrImm.imm ib =>
      match encodeSrcReg ra RegTag.REG_A with
      | .ok (raddra, muxa) => .ok ⟨raddra, uint32ofInt ib.val, muxa, 7⟩
      | .error e => .error e
  | RegOrImm.imm ia, RegOrImm.reg rb =>
      match encodeSrcReg rb RegTag.REG_A with
      | .ok (raddra, muxb) => .ok ⟨raddra, uint32ofInt ia.val, 7, muxb⟩
      | .error e => .error e

/-- vc4 instruction classes (enum vc4::Instr::Tag). -/
inductive Instr.Tag where
  | NOP
  | LI
  | ALU
  | BR
  | END
  | LDTMU
  | SINC
  | SDEC
  | ROT
deriving DecidableEq, Repr

/-- The physical instruction record built by the encoder (class vc4::Instr).
Field defaults model the default-constructed NOP record; no claim observes
a field its encoding path leaves unset. -/
structure Instr where
  m_tag : Instr.Tag := Instr.Tag.NOP
  m_sig : Nat := 0
  m_sem_flag : Nat := 0
  waddr_add : Nat := 0
  waddr_mul : Nat := 0
  m_raddra : Nat := 0
  m_raddrb : Nat := 0
  m_muxa : Nat := 0
  m_muxb : Nat := 0
  cond_add : Nat := 0
  cond_mul : Nat := 0
  m_sf : Bool := false
  m_ws : Bool := false
  m_rel : Bool := false
  li_imm : Nat := 0
  addOp : Nat := 0
  mulOp : Nat := 0
  sema_id : Nat := 0
deriving DecidableEq, Repr

/-- Instr::tag (src/Lib/vc4/Instr.cpp, lines 161-197): set the class tag
and the fixed per-class protocol fields (signal, forced read-address-B,
semaphore flag). -/
def Instr.tag (s : Instr) (in_tag : Instr.Tag) (imm : Bool) : Instr :=
  let s := { s with m_tag := in_tag }
  match in_tag with
  | Instr.Tag.NOP => s
  | Instr.Tag.LI => s
  | Instr.Tag.ROT => { s with m_sig := 13 }
  | Instr.Tag.ALU => { s with m_sig := if imm then 13 else 1 }
  | Instr.Tag.BR => { s with m_sig := 15 }
  | Instr.Tag.END => { s with m_sig := 3, m_raddrb := 39 }
  | Instr.Tag.LDTMU => { s with m_sig := 10, m_raddrb := 39 }
  | Instr.Tag.SINC => { s with m_sig := 14, m_sem_flag := 8 }
  | Instr.Tag.SDEC => { s with m_sig := 14, m_sem_flag := 8 }

/-- Modelled from the spec: the mul-pipe opcode of ALUOp M_V8MIN, the
rotate-carrying multiply opcode (ALUOp::vc4_encodeMulOp is not under
src/); its value is not observed by any claim. -/
def M_V8MIN_mulcode : Nat := 5

/-- Modelled from the spec: the projection of a machine-independent ALU
instruction that the encoder reads (the class V3DLib::Instr and ALUOp are
not under src/).  isMul and isRot are the op-class predicates; addOpEnc
and mulOpEnc the per-pipe opcode encodings; assignCond the encoded assign
condition; setFlags the set-flags indicator of the set-cond field. -/
structure ALUIn where
  dest : Reg
  srcA : RegOrImm
  srcB : RegOrImm
  isMul : Bool := false
  isRot : Bool := false
  addOpEnc : Nat := 0
  mulOpEnc : Nat := 0
  assignCond : Nat := 0
  setFlags : Bool := false
deriving DecidableEq, Repr

/-- Modelled from the spec: whether the ALU instruction carries a small
immediate (V3DLib::Instr::hasImm, not under src/); per the spec the ALU
signal is 13 when a small immediate is carried, else 1. -/
def ALUIn.hasImm (a : ALUIn) : Bool :=
  a.srcA.is_imm || a.srcB.is_imm

/-- The InstrTag::ALU branch of Instr::encode (src/Lib/vc4/Instr.cpp,
lines 340-378): resolve the destination, route condition and write-swap
to the active pipe, then either the rotate path (with its srcA/srcB
assertions and the read-address-B computation 48 + shift) or the general
path through encode_operands. -/
def Instr.encodeALU (a : ALUIn) : Except String Instr :=
  match encodeDestReg a.dest with
  | .error e => .error e
  | .ok (dest, file) =>
    let s0 : Instr := {}
    let s1 :=
      if a.isMul then
        { s0 with cond_mul := a.assignCond, waddr_mul := dest,
                  m_ws := decide (file ≠ RegTag.REG_B) }
      else
        { s0 with cond_add := a.assignCond, waddr_add := dest,
                  m_ws := decide (file ≠ RegTag.REG_A) }
    let s2 := { s1 with m_sf := a.setFlags }
    if a.isRot then
      if a.srcA.is_reg ∧ a.srcA.getReg.tag = RegTag.ACC ∧ a.srcA.getReg.regId = 0 then
        if (¬ a.srcB.is_reg = true) ∨
            (a.srcB.getReg.tag = RegTag.ACC ∧ a.srcB.getReg.regId = 5) then
          if ¬ a.srcB.is_reg = true then
            let n : Nat := uint32ofInt a.srcB.getImmVal
            if 1 ≤ n ∨ n ≤ 15 then
              let s3 := s2.tag Instr.Tag.ROT false
              .ok { s3 with mulOp := M_V8MIN_mulcode, m_raddrb := 48 + n }
            else
              .error ("assert failed: rotate shift amount out of range")
          else
            let s3 := s2.tag Instr.Tag.ROT false
            .ok { s3 with mulOp := M_V8MIN_mulcode, m_raddrb := 48 }
        else .error ("assert failed: rotate srcB must be unset or ACC 5")
      else .error ("assert failed: rotate srcA must be ACC 0")
    else
      let s3 := s2.tag Instr.Tag.ALU a.hasImm
      let s4 := { s3 with
        mulOp := if a.isMul then a.mulOpEnc else 0,
        addOp := if a.isMul then 0 else a.addOpEnc }
      match encode_operands a.srcA a.srcB with
      | .error e => .error e
      | .ok ops =>
          .ok { s4 with m_raddra := ops.raddra, m_raddrb := ops.raddrb,
                        m_muxa := ops.muxa, m_muxb := ops.muxb }

/-- Modelled from the spec: the branch target of the machine-independent
branch instruction (class BranchTarget, not under src/): a flag selecting
a register-relative offset, the relative indicator, and the literal
instruction offset. -/
structure BranchTarget where
  useRegOffset : Bool
  relative : Bool
  immOffset : Int
deriving DecidableEq, Repr

/-- The InstrTag::BR branch of Instr::encode (src/Lib/vc4/Instr.cpp,
lines 331-338): reject register offsets, set the class tag, the branch
condition, the relative flag, and the immediate field 8 times the literal
offset. -/
def Instr.encodeBR (branchCond : Nat) (target : BranchTarget) : Except String Instr :=
  if target.useRegOffset then
    .error ("Register offset not supported")
  else
    let s0 : Instr := {}
    let s1 := s0.tag Instr.Tag.BR false
    .ok { s1 with cond_add := branchCond, m_rel := target.relative,
                  li_imm := uint32ofInt (8 * target.immOffset) }

/-
  Theorems for the claims.
-/

/-- C1 counterexample: the special register SPECIAL_UNIFORM is not in the
enumerated destination set, yet encodeDestReg does not fail on it: the
inner switch falls through into the NONE case and returns address 39 with
the default bank A, contradicting the claim that such registers always
fail with a Contract Violation. -/
theorem C1_counterexample :
    SPECIAL_UNIFORM ∉ destSpecialIds ∧
    encodeDestReg ⟨RegTag.SPECIAL, SPECIAL_UNIFORM⟩ = .ok (39, RegTag.REG_A) := by
  constructor
  · decide
  · decide

/-- C1 (amended): for every destination Reg with tag SPECIAL whose id is
not in the enumerated special-register destination set, encodeDestReg
falls through into the NONE case and returns the no-operand write address
39 with the default bank A; it never fails for such a register. -/
theorem C1_special_dest_unmatched_falls_through (id : Int)
    (h : id ∉ destSpecialIds) :
    encodeDestReg ⟨RegTag.SPECIAL, id⟩ = .ok (39, RegTag.REG_A) := by
  simp only [destSpecialIds, List.mem_cons, List.not_mem_nil, or_false, not_or] at h
  obtain ⟨h1, h2, h3, h4, h5, h6, h7, h8, h9, h10, h11⟩ := h
  simp [encodeDestReg, h1, h2, h3, h4, h5, h6, h7, h8, h9, h10, h11]

/-- C1 witness: the amended claim applied at the concrete unmatched
special register SPECIAL_UNIFORM. -/
theorem C1_witness :
    encodeDestReg ⟨RegTag.SPECIAL, SPECIAL_UNIFORM⟩ = .ok (39, RegTag.REG_A) :=
  C1_special_dest_unmatched_falls_through SPECIAL_UNIFORM (by decide)

/-- C2: the claim says a rotate whose srcB immediate lies outside [1,15]
fails with a Contract Violation, but the range assert in the code reads
n >= 1 || n <= 15, which every n satisfies, so the encoder accepts any
shift amount: with immediate 16 it succeeds and sets read-address-B to
48 + 16 = 64 (overflowing the 6-bit field), and with immediate 0 it
succeeds with read-address-B 48.  The in-range half of the claim does
hold: inside [1,15] read-address-B is 48 plus the value (shown at 7). -/
theorem C2_rotate_shift_out_of_range_not_rejected :
    (Instr.encodeALU { dest := ⟨RegTag.ACC, 1⟩, srcA := .reg ⟨RegTag.ACC, 0⟩,
                       srcB := .imm ⟨16⟩, isMul := true, isRot := true }).map
        (fun s => s.m_raddrb) = .ok 64 ∧
    (Instr.encodeALU { dest := ⟨RegTag.ACC, 1⟩, srcA := .reg ⟨RegTag.ACC, 0⟩,
                       srcB := .imm ⟨0⟩, isMul := true, isRot := true }).map
        (fun s => s.m_raddrb) = .ok 48 ∧
    (Instr.encodeALU { dest := ⟨RegTag.ACC, 1⟩, srcA := .reg ⟨RegTag.ACC, 0⟩,
                       srcB := .imm ⟨7⟩, isMul := true, isRot := true }).map
        (fun s => s.m_raddrb) = .ok 55 := by
  refine ⟨?_, ?_, ?_⟩ <;> decide

/-- C3 counterexample: reading accumulator 2 through bank A returns read
address 0 (the NO_REGFILE_INDEX constant of the code), not the no-read
sentinel 39 the claim states. -/
theorem C3_counterexample :
    encodeSrcReg ⟨RegTag.ACC, 2⟩ RegTag.REG_A ≠ .ok (39, 2) ∧
    encodeSrcReg ⟨RegTag.ACC, 2⟩ RegTag.REG_A = .ok (0, 2) := by
  constructor
  · decide
  · decide

/-- C3 (amended): for every accumulator Reg with index in [0,4] read as a
source through either regfile, encodeSrcReg returns mux equal to the
index and read address 0, the code's NO_REGFILE_INDEX constant (not the
no-read sentinel 39). -/
theorem C3_acc_src_read (i : Int) (file : RegTag) (h0 : 0 ≤ i) (h1 : i ≤ 4)
    (hf : file = RegTag.REG_A ∨ file = RegTag.REG_B) :
    encodeSrcReg ⟨RegTag.ACC, i⟩ file = .ok (0, i.toNat) := by
  rcases hf with hf | hf <;> subst hf <;> simp [encodeSrcReg, h0, h1]

/-- C3 witness: the amended claim applied at accumulator 2 read through
bank A. -/
theorem C3_witness :
    encodeSrcReg ⟨RegTag.ACC, 2⟩ RegTag.REG_A = .ok (0, 2) := by
  have h := C3_acc_src_read 2 RegTag.REG_A (by decide) (by decide) (Or.inl rfl)
  simpa using h

/-- C4 counterexample: for ALU sources srcA = Imm 5, srcB = bank-A
register 3, the encoder produces muxA = 7 and muxB = 6: the immediate
code 7 lands in the mux slot of the position carrying the immediate (A),
not in the B-mux as the claim states. -/
theorem C4_counterexample :
    encode_operands (.imm ⟨5⟩) (.reg ⟨RegTag.REG_A, 3⟩) = .ok ⟨3, 5, 7, 6⟩ ∧
    (encode_operands (.imm ⟨5⟩) (.reg ⟨RegTag.REG_A, 3⟩)).map
        (fun f => f.muxb) ≠ .ok 7 := by
  constructor
  · decide
  · decide

/-- C4 (amended): for an ALU instruction pairing one register and one
immediate, in either source position, the register resolves through bank
A giving read-address-A and its mux, and the immediate's value (as a
uint32) goes into the read-address-B field; the immediate code 7 is set
in the mux slot of the position that carries the immediate, and the
register's mux occupies the other slot. -/
theorem C4_reg_imm_mixed (r : Reg) (i : SmallImm) (a m : Nat)
    (h : encodeSrcReg r RegTag.REG_A = .ok (a, m)) :
    encode_operands (.reg r) (.imm i) = .ok ⟨a, uint32ofInt i.val, m, 7⟩ ∧
    encode_operands (.imm i) (.reg r) = .ok ⟨a, uint32ofInt i.val, 7, m⟩ := by
  constructor <;> simp [encode_operands, h]

/-- C4 witness: the amended claim applied at register bank-A 3 and
immediate 5, in both operand orders. -/
theorem C4_witness :
    encode_operands (.reg ⟨RegTag.REG_A, 3⟩) (.imm ⟨5⟩) = .ok ⟨3, 5, 6, 7⟩ ∧
    encode_operands (.imm ⟨5⟩) (.reg ⟨RegTag.REG_A, 3⟩) = .ok ⟨3, 5, 7, 6⟩ := by
  have h := C4_reg_imm_mixed ⟨RegTag.REG_A, 3⟩ ⟨5⟩ 3 6 (by decide)
  exact ⟨by simpa using h.1, by simpa using h.2⟩

/-- C5: for every register with a fixed bank and index in range, encoding
an ALU instruction with that register as both sources reads it through
the bank it lives in, sets the other bank's read address to the
no-operand sentinel 39, and makes muxA equal to muxB. -/
theorem C5_same_register_operands (r : Reg) (h0 : 0 ≤ r.regId)
    (h1 : r.regId < 32) :
    (r.tag = RegTag.REG_A →
      encode_operands (.reg r) (.reg r) = .ok ⟨r.regId.toNat, 39, 6, 6⟩) ∧
    (r.tag = RegTag.REG_B →
      encode_operands (.reg r) (.reg r) = .ok ⟨39, r.regId.toNat, 7, 7⟩) := by
  obtain ⟨t, id⟩ := r
  constructor <;> intro ht <;> subst ht <;>
    simp [encode_operands, encodeSrcReg, Reg.regfile, h0, h1]

/-- C5 witness: the claim applied at bank-A register 3 and bank-B
register 5 as both sources. -/
theorem C5_witness :
    encode_operands (.reg ⟨RegTag.REG_A, 3⟩) (.reg ⟨RegTag.REG_A, 3⟩) =
      .ok ⟨3, 39, 6, 6⟩ ∧
    encode_operands (.reg ⟨RegTag.REG_B, 5⟩) (.reg ⟨RegTag.REG_B, 5⟩) =
      .ok ⟨39, 5, 7, 7⟩ := by
  constructor
  · have h := (C5_same_register_operands ⟨RegTag.REG_A, 3⟩ (by decide) (by decide)).1 rfl
    simpa using h
  · have h := (C5_same_register_operands ⟨RegTag.REG_B, 5⟩ (by decide) (by decide)).2 rfl
    simpa using h

/-- C6: two immediate sources are legal exactly when their values are
equal, in which case read-address-B takes the value (as a uint32),
raddra stays 0, and both muxes are the immediate code 7; differing
values fail with a Contract Violation. -/
theorem C6_immediate_pair (i1 i2 : SmallImm) :
    (i1.val = i2.val →
      encode_operands (.imm i1) (.imm i2) = .ok ⟨0, uint32ofInt i1.val, 7, 7⟩) ∧
    (i1.val ≠ i2.val →
      ∃ e, encode_operands (.imm i1) (.imm i2) = .error e) := by
  constructor
  · intro h
    simp [encode_operands, h]
  · intro h
    simp [encode_operands, h]

/-- C6 witness: the claim applied at the equal pair (5,5) and the
differing pair (1,2). -/
theorem C6_witness :
    encode_operands (.imm ⟨5⟩) (.imm ⟨5⟩) = .ok ⟨0, uint32ofInt 5, 7, 7⟩ ∧
    ∃ e, encode_operands (.imm ⟨1⟩) (.imm ⟨2⟩) = .error e :=
  ⟨(C6_immediate_pair ⟨5⟩ ⟨5⟩).1 rfl, (C6_immediate_pair ⟨1⟩ ⟨2⟩).2 (by decide)⟩

/-- C7: an accumulator used as a destination maps to write address
32 + index; index 5 forces bank B, any other index gets the default bank
A (the code's AorB default, since an accumulator has no preselected
regfile). -/
theorem C7_acc_dest (i : Int) (h0 : 0 ≤ i) (h1 : i ≤ 5) :
    encodeDestReg ⟨RegTag.ACC, i⟩ =
      .ok ((32 + i).toNat, if i = 5 then RegTag.REG_B else RegTag.REG_A) := by
  simp [encodeDestReg, h0, h1]

/-- C7 witness: the claim applied at accumulator indices 5 and 2. -/
theorem C7_witness :
    encodeDestReg ⟨RegTag.ACC, 5⟩ = .ok (37, RegTag.REG_B) ∧
    encodeDestReg ⟨RegTag.ACC, 2⟩ = .ok (34, RegTag.REG_A) := by
  constructor
  · have h := C7_acc_dest 5 (by decide) (by decide)
    simpa using h
  · have h := C7_acc_dest 2 (by decide) (by decide)
    simpa using h

/-- C8: encoding an unconditional ALU add of bank-A register 3 and bank-B
register 5 into bank-A register 3 yields read-address-A 3, read-address-B
5, muxA 6, muxB 7 and write-address-add 3. -/
theorem C8_concrete_alu_add :
    (Instr.encodeALU { dest := ⟨RegTag.REG_A, 3⟩, srcA := .reg ⟨RegTag.REG_A, 3⟩,
                       srcB := .reg ⟨RegTag.REG_B, 5⟩, addOpEnc := 1 }).map
        (fun s => (s.m_raddra, s.m_raddrb, s.m_muxa, s.m_muxb, s.waddr_add)) =
      .ok (3, 5, 6, 7, 3) := by
  decide

/-- C9: a branch whose target uses a register offset is rejected as
unsupported; for a literal offset the encoded immediate field is 8 times
the offset (stated for offsets whose multiple fits a uint32). -/
theorem C9_branch_encode (cond : Nat) (t : BranchTarget) :
    (t.useRegOffset = true → ∃ e, Instr.encodeBR cond t = .error e) ∧
    (t.useRegOffset = false → 0 ≤ t.immOffset → 8 * t.immOffset < 2 ^ 32 →
      (Instr.encodeBR cond t).map (fun s => s.li_imm) =
        .ok (8 * t.immOffset).toNat) := by
  constructor
  · intro h
    simp [Instr.encodeBR, h]
  · intro h h0 h1
    simp only [Instr.encodeBR, h, Bool.false_eq_true, if_false, Except.map]
    rw [uint32ofInt, Int.emod_eq_of_lt (by omega) h1]

/-- C9 witness: the claim applied at a register-offset target and at the
literal offset 2, whose immediate field is 16. -/
theorem C9_witness :
    (∃ e, Instr.encodeBR 0 ⟨true, false, 2⟩ = .error e) ∧
    (Instr.encodeBR 0 ⟨false, false, 2⟩).map (fun s => s.li_imm) = .ok 16 := by
  constructor
  · exact (C9_branch_encode 0 ⟨true, false, 2⟩).1 rfl
  · have h := (C9_branch_encode 0 ⟨false, false, 2⟩).2 rfl (by decide) (by decide)
    simpa using h

/-- C10: for two distinct register operands that both have regfile
affinity NONE (no fixed bank), the encoder reads srcB through the A port
(its address becomes read-address-A) and srcA through the B port (its
address becomes read-address-B), while muxA comes from srcA and muxB
from srcB. -/
theorem C10_floating_regs_swap_ports (ra rb : Reg) (aa ma ab mb : Nat)
    (hra : ra.regfile = RegTag.NONE) (hrb : rb.regfile = RegTag.NONE)
    (hne : ra ≠ rb)
    (hb : encodeSrcReg rb RegTag.REG_A = .ok (ab, mb))
    (ha : encodeSrcReg ra RegTag.REG_B = .ok (aa, ma)) :
    encode_operands (.reg ra) (.reg rb) = .ok ⟨ab, aa, ma, mb⟩ := by
  simp [encode_operands, hra, hrb, hne, hb, ha]

/-- C10 witness: the claim applied at srcA = accumulator 1 and srcB =
accumulator 2: both read addresses are 0 (accumulators bypass the
regfile), muxA = 1 from srcA and muxB = 2 from srcB. -/
theorem C10_witness :
    encode_operands (.reg ⟨RegTag.ACC, 1⟩) (.reg ⟨RegTag.ACC, 2⟩) =
      .ok ⟨0, 0, 1, 2⟩ :=
  C10_floating_regs_swap_ports ⟨RegTag.ACC, 1⟩ ⟨RegTag.ACC, 2⟩ 0 1 0 2
    rfl rfl (by decide) (by decide) (by decide)

end vc4

end V3DLib
